import Mathlib

/-!
Verification of the compose-tool lifecycle manager (`ComposeExtension`).

The TypeScript class `ComposeExtension` is embedded shallowly: every collaborator
(detection probes, release source, wrapper generator, filesystem, status bar,
user messaging) is represented by explicit data, and the two entry points
`runChecks` and `installDockerCompose` become pure functions from an
environment (the answers the collaborators would give) and a state (advisory
message, status-bar item, filesystem) to a result that carries the new state,
the emitted one-shot messages, and either the computed status-bar changes or
the error that escaped.
-/

set_option autoImplicit false

namespace Compose

/-- Failures a collaborator can raise (probe fault, network fault, missing
platform asset, filesystem fault, or a JavaScript `TypeError` from
dereferencing `undefined`). -/
inductive Err where
  | probe : String → Err
  | network : String → Err
  | unsupportedPlatform : String → Err
  | filesystem : String → Err
  | typeError : String → Err
deriving DecidableEq, Repr

/-- Host OS family reported by the OS capability probe. -/
inductive OSKind where
  | windows
  | linux
  | mac
deriving DecidableEq, Repr

/-- Embedding of `os.isWindows()`. -/
def OSKind.isWindows : OSKind → Bool
  | .windows => true
  | _ => false

/-- Embedding of `os.isLinux()`. -/
def OSKind.isLinux : OSKind → Bool
  | .linux => true
  | _ => false

/-- Embedding of `os.isMac()`. -/
def OSKind.isMac : OSKind → Bool
  | .mac => true
  | _ => false

/-- Embedding of `path.resolve(base, seg1, seg2, ...)`: segments are joined
onto the (absolute) base with the path separator. -/
def pathResolve (base : String) (segments : List String) : String :=
  segments.foldl (fun acc seg => acc ++ "/" ++ seg) base

/-- An `extensionApi.ProviderContainerConnection`: the coordinator only reads
`connection.status()` and hands the connection to the wrapper generator, which
embeds its endpoint. -/
structure ProviderContainerConnection where
  status : String
  endpoint : String
deriving DecidableEq, Repr

/-- The `{iconClass, tooltip, command}` tuple pushed to the status bar item. -/
structure StatusBarChanges where
  iconClass : String
  tooltip : String
  command : String
deriving DecidableEq, Repr

/-- The filesystem as the extension sees it: file contents, permission modes,
and the set of directories. -/
structure FileSystem where
  files : List (String × String)
  modes : List (String × Nat)
  dirs : List String
deriving DecidableEq, Repr

/-- Content of the file at `p`, when one exists. -/
def FileSystem.fileAt (fs : FileSystem) (p : String) : Option String :=
  (fs.files.find? (fun e => e.1 == p)).map (fun e => e.2)

/-- Permission mode of the file at `p`, when one has been set. -/
def FileSystem.modeAt (fs : FileSystem) (p : String) : Option Nat :=
  (fs.modes.find? (fun e => e.1 == p)).map (fun e => e.2)

/-- Overwrite-or-create the file at `p` with content `c`. -/
def FileSystem.writeFile (fs : FileSystem) (p c : String) : FileSystem :=
  { fs with files := (p, c) :: fs.files.filter (fun e => e.1 != p) }

/-- Embedding of `promises.chmod(p, mode)`. -/
def FileSystem.chmod (fs : FileSystem) (p : String) (mode : Nat) : FileSystem :=
  { fs with modes := (p, mode) :: fs.modes.filter (fun e => e.1 != p) }

/-- Embedding of `existsSync(p)` for the bin folder. -/
def FileSystem.existsDir (fs : FileSystem) (p : String) : Bool :=
  fs.dirs.contains p

/-- Embedding of `promises.mkdir(p, recursive)`. -/
def FileSystem.mkdirRecursive (fs : FileSystem) (p : String) : FileSystem :=
  { fs with dirs := p :: fs.dirs }

deriving instance DecidableEq for Except

/-- The `Detect` collaborator: each probe either answers a boolean or faults.
`getSocketPath` is the socket path string used in one tooltip. -/
structure Detect where
  checkForDockerCompose : Except Err Bool
  checkDefaultSocketIsAlive : Except Err Bool
  checkStoragePath : Except Err Bool
  getSocketPath : String
deriving DecidableEq, Repr

/-- Everything a check cycle consults: the detection probes, the container
connections returned by `extensionApi.provider.getContainerConnections()`, the
OS probe, `extensionContext.storagePath`, and the outcomes of the wrapper
generator and of `chmod`. -/
structure ChecksEnv where
  detect : Detect
  connections : List ProviderContainerConnection
  os : OSKind
  storagePath : String
  generateResult : Except Err Unit
  chmodResult : Except Err Unit
deriving DecidableEq, Repr

/-- The mutable pieces of `ComposeExtension`: `currentInformation`, the
status-bar item (when created), and the filesystem it writes to. -/
structure ExtensionState where
  currentInformation : Option String
  statusBarItem : Option StatusBarChanges
  fs : FileSystem
deriving DecidableEq, Repr

def COMPOSE_INSTALL_COMMAND : String := "compose.install"
def COMPOSE_CHECKS_COMMAND : String := "compose.checks"
def ICON_CHECK : String := "fa fa-check"
def ICON_DOWNLOAD : String := "fa fa-download"
def ICON_WARNING : String := "fa fa-exclamation-triangle"

/-- Tooltip of the branch where the default socket answers. -/
def tooltipReachable : String := "Compose is installed and DOCKER_HOST is reachable"

/-- Tooltip of the branch where no container engine is running. -/
def tooltipNoEngine : String :=
  "No running container engine. Unable to write a compose wrapper script that will set DOCKER_HOST in that case. Please start a container engine first."

/-- Tooltip of the branch where the wrapper is needed but the bin folder is
not on the PATH. -/
def tooltipNeedWrapper (socketPath : String) : String :=
  socketPath ++ " is not enabled. Need to use wrapper script"

/-- Tooltip of the branch where the wrapper is in place and the bin folder is
on the PATH; it names the wrapper path. -/
def tooltipUsableWith (storagePath : String) : String :=
  "Compose is installed and usable with " ++ pathResolve storagePath ["bin", "compose"]

/-- The advisory message set in the needs-PATH-setup branch; it names the bin
folder and the wrapper script path. -/
def advisoryInformation (storagePath : String) : String :=
  "Please add the compose wrapper bin folder to your PATH environment variable. Value is " ++
    pathResolve storagePath ["bin"] ++ ". The script " ++
    pathResolve storagePath ["bin", "compose"] ++
    " will setup for you the DOCKER_HOST environment variable."

/-- Modelled from the spec: `ComposeWrapperGenerator.generate` (file
`compose-wrapper-generator.ts`, whose body is not in this snapshot) writes at
the destination a script that sets DOCKER_HOST to the connection's endpoint
and delegates to the compose binary. Only the fact that the content is a
deterministic function of the connection matters here. -/
def wrapperScriptContent (connection : ProviderContainerConnection) : String :=
  "export DOCKER_HOST=" ++ connection.endpoint ++ "; delegate to docker-compose"

/-- Embedding of `ComposeExtension.makeExecutable`: on Linux and Mac it runs
`chmod 0o755` (which the environment may fault); on Windows it does nothing.
The filesystem reached at the point of a fault is returned alongside. -/
def makeExecutable (env : ChecksEnv) (fs : FileSystem) (filePath : String) :
    Except Err Unit × FileSystem :=
  if env.os.isLinux || env.os.isMac then
    match env.chmodResult with
    | .ok _ => (.ok (), fs.chmod filePath 0o755)
    | .error e => (.error e, fs)
  else
    (.ok (), fs)

/-- The path of the generated wrapper script: `storagePath/bin/compose` with
`.bat` appended on Windows. -/
def composeWrapperScriptPath (env : ChecksEnv) : String :=
  pathResolve (pathResolve env.storagePath ["bin"]) ["compose" ++ (if env.os.isWindows then ".bat" else "")]

/-- Embedding of `ComposeExtension.addComposeWrapper`: ensure the bin folder
exists, have the generator write the wrapper script, make it executable. -/
def addComposeWrapper (env : ChecksEnv) (fs : FileSystem)
    (connection : ProviderContainerConnection) : Except Err Unit × FileSystem :=
  let storageBinFolder := pathResolve env.storagePath ["bin"]
  let fs := if fs.existsDir storageBinFolder then fs else fs.mkdirRecursive storageBinFolder
  match env.generateResult with
  | .error e => (.error e, fs)
  | .ok _ =>
    let fs := fs.writeFile (composeWrapperScriptPath env) (wrapperScriptContent connection)
    makeExecutable env fs (composeWrapperScriptPath env)

/-- Embedding of `ComposeExtension.notifyOnChecks`: show the advisory only
when it is set and this is not the first check. -/
def notifyOnChecks (currentInformation : Option String) (firstCheck : Bool) : List String :=
  match currentInformation, firstCheck with
  | some information, false => [information]
  | _, _ => []

/-- Result of a check cycle: on success the new state, the messages pushed to
the user-messaging sink, and the computed status-bar changes; on failure the
escaped error together with the state at the point of failure. -/
inductive RunResult where
  | ok : ExtensionState → List String → StatusBarChanges → RunResult
  | error : Err → ExtensionState → RunResult
deriving DecidableEq, Repr

/-- The state carried by a `RunResult`, whichever way the cycle ended. -/
def RunResult.state : RunResult → ExtensionState
  | .ok st _ _ => st
  | .error _ st => st

/-- The messages a check cycle pushed to the user-messaging sink. -/
def RunResult.messages : RunResult → List String
  | .ok _ msgs _ => msgs
  | .error _ _ => []

/-- The status-bar changes a completed check cycle computed, if it completed. -/
def RunResult.changes : RunResult → Option StatusBarChanges
  | .ok _ _ c => some c
  | .error _ _ => none

/-- Whether the check cycle escaped with an error. -/
def RunResult.isError : RunResult → Bool
  | .ok _ _ _ => false
  | .error _ _ => true

/-- Build the successful end of a check cycle: the computed changes are
applied to the status-bar item when one exists, and `notifyOnChecks` runs. -/
def finishChecks (firstCheck : Bool) (st : ExtensionState) (fs : FileSystem)
    (information : Option String) (changes : StatusBarChanges) : RunResult :=
  .ok
    { currentInformation := information,
      statusBarItem := st.statusBarItem.map (fun _ => changes),
      fs := fs }
    (notifyOnChecks information firstCheck)
    changes

/-- Embedding of `ComposeExtension.runChecks`, mirroring the source
control flow: clear `currentInformation`; probe for docker-compose; if absent
propose the install; else probe the default socket; if alive report reachable;
else filter the started connections; if none warn; else write the wrapper for
the first started connection, then report according to whether the bin folder
is on the PATH. The computed status-bar changes are applied at the end, then
`notifyOnChecks` runs. Faults escape; no handler catches them. -/
def runChecks (env : ChecksEnv) (firstCheck : Bool) (st : ExtensionState) : RunResult :=
  let cleared : ExtensionState := { st with currentInformation := none }
  match env.detect.checkForDockerCompose with
  | .error e => .error e cleared
  | .ok false =>
    finishChecks firstCheck st st.fs none
      { iconClass := ICON_DOWNLOAD, tooltip := "Install Compose",
        command := COMPOSE_INSTALL_COMMAND }
  | .ok true =>
    match env.detect.checkDefaultSocketIsAlive with
    | .error e => .error e cleared
    | .ok true =>
      finishChecks firstCheck st st.fs none
        { iconClass := ICON_CHECK, tooltip := tooltipReachable,
          command := COMPOSE_CHECKS_COMMAND }
    | .ok false =>
      match env.connections.filter (fun c => c.status == "started") with
      | [] =>
        finishChecks firstCheck st st.fs none
          { iconClass := ICON_WARNING, tooltip := tooltipNoEngine,
            command := COMPOSE_CHECKS_COMMAND }
      | firstStarted :: _ =>
        match addComposeWrapper env st.fs firstStarted with
        | (Except.error e, fs1) => .error e { cleared with fs := fs1 }
        | (Except.ok _, fs1) =>
          match env.detect.checkStoragePath with
          | .error e => .error e { cleared with fs := fs1 }
          | .ok false =>
            finishChecks firstCheck st fs1 (some (advisoryInformation env.storagePath))
              { iconClass := ICON_WARNING,
                tooltip := tooltipNeedWrapper env.detect.getSocketPath,
                command := COMPOSE_CHECKS_COMMAND }
          | .ok true =>
            finishChecks firstCheck st fs1 none
              { iconClass := ICON_CHECK, tooltip := tooltipUsableWith env.storagePath,
                command := COMPOSE_CHECKS_COMMAND }

/-- A release descriptor `{id, label}` as returned by
`grabLatestsReleasesMetadata`, most recent first. -/
structure ReleaseMetadata where
  id : String
  label : String
deriving DecidableEq, Repr

/-- Everything the install flow consults: the check-cycle environment (for the
OS, storage path, chmod outcome and the closing re-check), the release list,
the quick-pick answer, the asset resolver with the current platform and
architecture, and the download outcome (the bytes, or the fault). -/
structure InstallEnv where
  checks : ChecksEnv
  grabLatestsReleasesMetadata : Except Err (List ReleaseMetadata)
  showQuickPick : Option ReleaseMetadata
  getReleaseAssetId : String → String → String → Except Err Nat
  platform : String
  arch : String
  downloadResult : Except Err String

/-- The message of the `TypeError` raised when `selectedRelease` is
`undefined` and its `id` field is read. -/
def undefinedSelectionMessage : String :=
  "cannot read properties of undefined (reading id)"

/-- The release the flow proceeds with: the user's pick, or index 0 of the
release list when the user picked nothing. `none` means the JavaScript value
is `undefined` (empty list and no pick). -/
def selectRelease (userSelection : Option ReleaseMetadata)
    (lastReleasesMetadata : List ReleaseMetadata) : Option ReleaseMetadata :=
  match userSelection with
  | some selected => some selected
  | none => lastReleasesMetadata.head?

/-- The destination of the downloaded binary:
`storagePath/bin/docker-compose` with `.exe` appended on Windows. -/
def dockerComposeDownloadLocation (env : InstallEnv) : String :=
  pathResolve (pathResolve env.checks.storagePath ["bin"])
    ["docker-compose" ++ (if env.checks.os.isWindows then ".exe" else "")]

/-- Modelled from the spec: `ComposeGitHubReleases.downloadReleaseAsset` (file
`compose-github-releases.ts`, whose body is not in this snapshot) streams the
asset bytes to the destination path and must fail atomically — it downloads to
a temporary path and renames on success — so on failure the destination is
left exactly as it was. -/
def downloadReleaseAsset (result : Except Err String) (fs : FileSystem) (_assetId : Nat)
    (destination : String) : Except Err Unit × FileSystem :=
  match result with
  | .ok bytes => (.ok (), fs.writeFile destination bytes)
  | .error e => (.error e, fs)

/-- Result of the install flow: on success the state after the closing
(fire-and-forget) re-check together with every message pushed to the
user-messaging sink; on failure the escaped error and the state at the point
of failure. -/
inductive InstallResult where
  | ok : ExtensionState → List String → InstallResult
  | error : Err → ExtensionState → InstallResult
deriving DecidableEq, Repr

/-- The state carried by an `InstallResult`, whichever way the flow ended. -/
def InstallResult.state : InstallResult → ExtensionState
  | .ok st _ => st
  | .error _ st => st

/-- The messages the install flow pushed to the user-messaging sink. -/
def InstallResult.messages : InstallResult → List String
  | .ok _ msgs => msgs
  | .error _ _ => []

/-- Whether the install flow escaped with an error. -/
def InstallResult.isError : InstallResult → Bool
  | .ok _ _ => false
  | .error _ _ => true

/-- The end of a successful install: the success message is pushed, then
`runChecks(false)` is triggered without being awaited, so its effects land but
a fault of that re-check does not fail the install flow. -/
def finishInstall (installedMessage : String) (recheck : RunResult) : InstallResult :=
  match recheck with
  | .ok st2 messages _ => .ok st2 (installedMessage :: messages)
  | .error _ st2 => .ok st2 [installedMessage]

/-- Embedding of `ComposeExtension.installDockerCompose`, mirroring the source
control flow: list the releases; quick-pick (defaulting to index 0); resolve
the asset id for the current platform and architecture; ensure the bin folder
exists; download to `docker-compose[.exe]` under it; make it executable;
notify success naming the release label; finally trigger `runChecks(false)`
without awaiting it, so a fault of that re-check does not fail the flow. -/
def installDockerCompose (env : InstallEnv) (st : ExtensionState) : InstallResult :=
  match env.grabLatestsReleasesMetadata with
  | .error e => .error e st
  | .ok lastReleasesMetadata =>
    match selectRelease env.showQuickPick lastReleasesMetadata with
    | none => .error (.typeError undefinedSelectionMessage) st
    | some selectedRelease =>
      match env.getReleaseAssetId selectedRelease.id env.platform env.arch with
      | .error e => .error e st
      | .ok assetId =>
        let storageBinFolder := pathResolve env.checks.storagePath ["bin"]
        let fs :=
          if st.fs.existsDir storageBinFolder then st.fs
          else st.fs.mkdirRecursive storageBinFolder
        match downloadReleaseAsset env.downloadResult fs assetId
            (dockerComposeDownloadLocation env) with
        | (Except.error e, fs1) => .error e { st with fs := fs1 }
        | (Except.ok _, fs1) =>
          match makeExecutable env.checks fs1 (dockerComposeDownloadLocation env) with
          | (Except.error e, fs2) => .error e { st with fs := fs2 }
          | (Except.ok _, fs2) =>
            let installedMessage :=
              "Docker Compose " ++ selectedRelease.label ++ " installed"
            finishInstall installedMessage (runChecks env.checks false { st with fs := fs2 })

/-- The `InstallationStatus` enumeration of the spec's data model. -/
inductive InstallationStatus where
  | NotInstalled
  | InstalledAndReachable
  | InstalledNeedsPathSetup
  | InstalledNeedsWrapper
  | NoRunningEngine
deriving DecidableEq, Repr

/-- The spec's transition function (section 4.2), written from the spec's
words: evaluated top-to-bottom, first match wins. -/
def specTransition (hasCompose hasReachableDefaultSocket hasStartedConnection
    hasWrapperOnPath : Bool) : InstallationStatus :=
  if !hasCompose then .NotInstalled
  else if hasReachableDefaultSocket then .InstalledAndReachable
  else if !hasStartedConnection then .NoRunningEngine
  else if hasWrapperOnPath then .InstalledAndReachable
  else .InstalledNeedsPathSetup

/-- The presentation table the spec prescribes for each input combination,
written from the spec's words, to be compared with what `runChecks`
computes. -/
def specPresentation (env : ChecksEnv) (hasCompose hasReachableDefaultSocket
    hasStartedConnection hasWrapperOnPath : Bool) : StatusBarChanges :=
  if !hasCompose then
    { iconClass := ICON_DOWNLOAD, tooltip := "Install Compose",
      command := COMPOSE_INSTALL_COMMAND }
  else if hasReachableDefaultSocket then
    { iconClass := ICON_CHECK, tooltip := tooltipReachable,
      command := COMPOSE_CHECKS_COMMAND }
  else if !hasStartedConnection then
    { iconClass := ICON_WARNING, tooltip := tooltipNoEngine,
      command := COMPOSE_CHECKS_COMMAND }
  else if hasWrapperOnPath then
    { iconClass := ICON_CHECK, tooltip := tooltipUsableWith env.storagePath,
      command := COMPOSE_CHECKS_COMMAND }
  else
    { iconClass := ICON_WARNING, tooltip := tooltipNeedWrapper env.detect.getSocketPath,
      command := COMPOSE_CHECKS_COMMAND }

/-- The started connections a check cycle filters out of the environment. -/
def startedConnections (env : ChecksEnv) : List ProviderContainerConnection :=
  env.connections.filter (fun c => c.status == "started")

/-- The filesystem produced by the wrapper-regeneration branch when the
generator and `chmod` succeed: bin folder ensured, wrapper written, wrapper
made executable on Linux and Mac. -/
def wrapperRegenFs (env : ChecksEnv) (fs : FileSystem)
    (connection : ProviderContainerConnection) : FileSystem :=
  let storageBinFolder := pathResolve env.storagePath ["bin"]
  let fs1 := if fs.existsDir storageBinFolder then fs
    else fs.mkdirRecursive storageBinFolder
  let fs2 := fs1.writeFile (composeWrapperScriptPath env) (wrapperScriptContent connection)
  if env.os.isLinux || env.os.isMac then
    fs2.chmod (composeWrapperScriptPath env) 0o755
  else fs2

section FileSystemLemmas

variable {α : Type}

theorem find?_filter_ne (l : List (String × α)) (p q : String) (h : q ≠ p) :
    (l.filter (fun e => e.1 != p)).find? (fun e => e.1 == q) =
      l.find? (fun e => e.1 == q) := by
  induction l with
  | nil => rfl
  | cons a l ih =>
    by_cases hq : a.1 = q
    · have hp : (a.1 != p) = true := by simp [hq, h]
      simp [List.filter_cons, hp, List.find?_cons, hq, h]
    · by_cases hp : a.1 = p
      · have : (a.1 != p) = false := by simp [hp]
        simp [List.filter_cons, this, List.find?_cons, hq, ih]
      · have : (a.1 != p) = true := by simp [hp]
        simp [List.filter_cons, this, List.find?_cons, hq, ih]

@[simp] theorem fileAt_writeFile_self (fs : FileSystem) (p c : String) :
    (fs.writeFile p c).fileAt p = some c := by
  simp [FileSystem.fileAt, FileSystem.writeFile, List.find?_cons]

theorem fileAt_writeFile_ne (fs : FileSystem) (p q c : String) (h : q ≠ p) :
    (fs.writeFile p c).fileAt q = fs.fileAt q := by
  have hpq : (p == q) = false := by
    simp [Ne.symm h]
  simp [FileSystem.fileAt, FileSystem.writeFile, List.find?_cons, hpq,
    find?_filter_ne fs.files p q h]

@[simp] theorem fileAt_chmod (fs : FileSystem) (p q : String) (m : Nat) :
    (fs.chmod p m).fileAt q = fs.fileAt q := rfl

@[simp] theorem fileAt_mkdirRecursive (fs : FileSystem) (p q : String) :
    (fs.mkdirRecursive p).fileAt q = fs.fileAt q := rfl

@[simp] theorem modeAt_chmod_self (fs : FileSystem) (p : String) (m : Nat) :
    (fs.chmod p m).modeAt p = some m := by
  simp [FileSystem.modeAt, FileSystem.chmod, List.find?_cons]

theorem modeAt_chmod_ne (fs : FileSystem) (p q : String) (m : Nat) (h : q ≠ p) :
    (fs.chmod p m).modeAt q = fs.modeAt q := by
  have hpq : (p == q) = false := by
    simp [Ne.symm h]
  simp [FileSystem.modeAt, FileSystem.chmod, List.find?_cons, hpq,
    find?_filter_ne fs.modes p q h]

@[simp] theorem modeAt_writeFile (fs : FileSystem) (p c q : String) :
    (fs.writeFile p c).modeAt q = fs.modeAt q := rfl

@[simp] theorem modeAt_mkdirRecursive (fs : FileSystem) (p q : String) :
    (fs.mkdirRecursive p).modeAt q = fs.modeAt q := rfl

@[simp] theorem modes_writeFile (fs : FileSystem) (p c : String) :
    (fs.writeFile p c).modes = fs.modes := rfl

@[simp] theorem modes_mkdirRecursive (fs : FileSystem) (p : String) :
    (fs.mkdirRecursive p).modes = fs.modes := rfl

@[simp] theorem files_chmod (fs : FileSystem) (p : String) (m : Nat) :
    (fs.chmod p m).files = fs.files := rfl

@[simp] theorem files_mkdirRecursive (fs : FileSystem) (p : String) :
    (fs.mkdirRecursive p).files = fs.files := rfl

end FileSystemLemmas

theorem makeExecutable_ok (env : ChecksEnv) (fs : FileSystem) (p : String)
    (hc : env.chmodResult = .ok ()) :
    makeExecutable env fs p =
      (.ok (), if env.os.isLinux || env.os.isMac then fs.chmod p 0o755 else fs) := by
  unfold makeExecutable
  cases h : env.os.isLinux || env.os.isMac <;> simp [h, hc]

theorem addComposeWrapper_ok (env : ChecksEnv) (fs : FileSystem)
    (connection : ProviderContainerConnection)
    (hg : env.generateResult = .ok ()) (hc : env.chmodResult = .ok ()) :
    addComposeWrapper env fs connection = (.ok (), wrapperRegenFs env fs connection) := by
  unfold addComposeWrapper wrapperRegenFs
  rw [hg]
  simp [makeExecutable_ok _ _ _ hc]

/-- **C1**: for every combination of the four detection inputs (`hasCompose`,
`hasReachableDefaultSocket`, existence of a started connection,
`hasWrapperOnPath`), a check cycle computes exactly the presentation the
spec's transition table prescribes (icons, tooltips, and commands as listed),
applies it to the status-bar item, and the computed command is the install
command exactly in the `NotInstalled` state and the recheck command in every
other state. -/
theorem runChecks_matches_presentation_table (env : ChecksEnv) (firstCheck : Bool)
    (st : ExtensionState) (hasCompose socketAlive onPath : Bool)
    (h1 : env.detect.checkForDockerCompose = .ok hasCompose)
    (h2 : env.detect.checkDefaultSocketIsAlive = .ok socketAlive)
    (h4 : env.detect.checkStoragePath = .ok onPath)
    (hg : env.generateResult = .ok ())
    (hc : env.chmodResult = .ok ()) :
    (runChecks env firstCheck st).changes =
      some (specPresentation env hasCompose socketAlive
        (!(startedConnections env).isEmpty) onPath) ∧
    (runChecks env firstCheck st).state.statusBarItem =
      st.statusBarItem.map (fun _ => specPresentation env hasCompose socketAlive
        (!(startedConnections env).isEmpty) onPath) ∧
    (specPresentation env hasCompose socketAlive
        (!(startedConnections env).isEmpty) onPath).command =
      (if specTransition hasCompose socketAlive
          (!(startedConnections env).isEmpty) onPath = .NotInstalled
        then COMPOSE_INSTALL_COMMAND else COMPOSE_CHECKS_COMMAND) := by
  rcases hse : env.connections.filter (fun c => c.status == "started") with _ | ⟨c0, rest⟩ <;>
    cases hasCompose <;> cases socketAlive <;> cases onPath <;>
      simp [runChecks, startedConnections, h1, h2, h4, hse,
        addComposeWrapper_ok _ _ _ hg hc, finishChecks, specPresentation, specTransition,
        RunResult.changes, RunResult.state, notifyOnChecks,
        COMPOSE_INSTALL_COMMAND, COMPOSE_CHECKS_COMMAND]

theorem wrapperRegenFs_fileAt (env : ChecksEnv) (fs : FileSystem)
    (connection : ProviderContainerConnection) :
    (wrapperRegenFs env fs connection).fileAt (composeWrapperScriptPath env) =
      some (wrapperScriptContent connection) := by
  unfold wrapperRegenFs
  cases h : env.os.isLinux || env.os.isMac <;> simp [h]

theorem wrapperRegenFs_modeAt (env : ChecksEnv) (fs : FileSystem)
    (connection : ProviderContainerConnection)
    (h : (env.os.isLinux || env.os.isMac) = true) :
    (wrapperRegenFs env fs connection).modeAt (composeWrapperScriptPath env) =
      some 0o755 := by
  unfold wrapperRegenFs
  simp [h]

theorem not_windows_of_linux_or_mac (os : OSKind)
    (h : (os.isLinux || os.isMac) = true) : os.isWindows = false := by
  cases os <;> simp_all [OSKind.isLinux, OSKind.isMac, OSKind.isWindows]

/-- **C4**: the advisory message is never pushed to the user-messaging sink on
a first-check cycle, whatever the computed status; on a subsequent cycle whose
status is `InstalledNeedsPathSetup` it is pushed exactly once. -/
theorem advisory_suppressed_on_first_check (env : ChecksEnv) (st : ExtensionState)
    (hasCompose socketAlive onPath : Bool)
    (h1 : env.detect.checkForDockerCompose = .ok hasCompose)
    (h2 : env.detect.checkDefaultSocketIsAlive = .ok socketAlive)
    (h4 : env.detect.checkStoragePath = .ok onPath)
    (hg : env.generateResult = .ok ())
    (hc : env.chmodResult = .ok ()) :
    (runChecks env true st).messages = [] ∧
    (specTransition hasCompose socketAlive (!(startedConnections env).isEmpty) onPath =
        .InstalledNeedsPathSetup →
      (runChecks env false st).messages = [advisoryInformation env.storagePath]) := by
  rcases hse : env.connections.filter (fun c => c.status == "started") with _ | ⟨c0, rest⟩ <;>
    cases hasCompose <;> cases socketAlive <;> cases onPath <;>
      simp [runChecks, startedConnections, h1, h2, h4, hse,
        addComposeWrapper_ok _ _ _ hg hc, finishChecks, specTransition,
        RunResult.messages, RunResult.state, notifyOnChecks]

/-- **C5**: across every completed check cycle, `currentInformation` is
cleared at the start (the prior value is irrelevant) and at the end it is set
if and only if the cycle's status is `InstalledNeedsPathSetup`, in which case
it is the advisory naming the bin folder and wrapper script. -/
theorem advisory_set_iff_needs_path_setup (env : ChecksEnv) (firstCheck : Bool)
    (st : ExtensionState) (hasCompose socketAlive onPath : Bool)
    (h1 : env.detect.checkForDockerCompose = .ok hasCompose)
    (h2 : env.detect.checkDefaultSocketIsAlive = .ok socketAlive)
    (h4 : env.detect.checkStoragePath = .ok onPath)
    (hg : env.generateResult = .ok ())
    (hc : env.chmodResult = .ok ()) :
    (runChecks env firstCheck st).state.currentInformation =
      (if specTransition hasCompose socketAlive (!(startedConnections env).isEmpty) onPath =
          .InstalledNeedsPathSetup
        then some (advisoryInformation env.storagePath) else none) := by
  rcases hse : env.connections.filter (fun c => c.status == "started") with _ | ⟨c0, rest⟩ <;>
    cases hasCompose <;> cases socketAlive <;> cases onPath <;>
      simp [runChecks, startedConnections, h1, h2, h4, hse,
        addComposeWrapper_ok _ _ _ hg hc, finishChecks, specTransition,
        RunResult.state, notifyOnChecks]

/-- **C6**: a check cycle leaves the filesystem completely untouched when
compose is absent, or the default socket is reachable, or no connection is
started; and when the regeneration branch is reached (with the generator and
`chmod` succeeding) the wrapper script holds the content generated for the
first started connection. -/
theorem wrapper_written_iff_regeneration_branch (env : ChecksEnv) (firstCheck : Bool)
    (st : ExtensionState) :
    ((env.detect.checkForDockerCompose = .ok false ∨
        env.detect.checkDefaultSocketIsAlive = .ok true ∨
        startedConnections env = []) →
      (runChecks env firstCheck st).state.fs = st.fs) ∧
    (∀ c0 rest, startedConnections env = c0 :: rest →
      env.detect.checkForDockerCompose = .ok true →
      env.detect.checkDefaultSocketIsAlive = .ok false →
      env.generateResult = .ok () →
      env.chmodResult = .ok () →
      (runChecks env firstCheck st).state.fs.fileAt (composeWrapperScriptPath env) =
        some (wrapperScriptContent c0)) := by
  constructor
  · intro h
    rcases h1 : env.detect.checkForDockerCompose with e1 | b1
    · simp [runChecks, h1, RunResult.state]
    · cases b1
      · simp [runChecks, h1, finishChecks, RunResult.state]
      · rcases h2 : env.detect.checkDefaultSocketIsAlive with e2 | b2
        · simp [runChecks, h1, h2, RunResult.state]
        · cases b2
          · have hse : env.connections.filter (fun c => c.status == "started") = [] := by
              rcases h with h | h | h
              · rw [h1] at h; simp at h
              · rw [h2] at h; simp at h
              · exact h
            simp [runChecks, h1, h2, hse, finishChecks, RunResult.state]
          · simp [runChecks, h1, h2, finishChecks, RunResult.state]
  · intro c0 rest hse h1 h2 hg hc
    have hse' : env.connections.filter (fun c => c.status == "started") = c0 :: rest := hse
    rcases h4 : env.detect.checkStoragePath with e4 | b4
    · simp [runChecks, h1, h2, hse', addComposeWrapper_ok _ _ _ hg hc, h4,
        RunResult.state, wrapperRegenFs_fileAt]
    · cases b4 <;>
        simp [runChecks, h1, h2, hse', addComposeWrapper_ok _ _ _ hg hc, h4,
          finishChecks, RunResult.state, wrapperRegenFs_fileAt]

/-- **C10**: on Linux and Mac, a check cycle that reaches the
wrapper-regeneration branch leaves the wrapper script — named plain
`compose` on these platforms — with permission mode `0o755`, because
`addComposeWrapper` runs the same `makeExecutable` step after generating. -/
theorem wrapper_executable_after_regeneration (env : ChecksEnv) (firstCheck : Bool)
    (st : ExtensionState) (c0 : ProviderContainerConnection)
    (rest : List ProviderContainerConnection)
    (hos : (env.os.isLinux || env.os.isMac) = true)
    (hse : startedConnections env = c0 :: rest)
    (h1 : env.detect.checkForDockerCompose = .ok true)
    (h2 : env.detect.checkDefaultSocketIsAlive = .ok false)
    (hg : env.generateResult = .ok ())
    (hc : env.chmodResult = .ok ()) :
    (runChecks env firstCheck st).state.fs.modeAt (composeWrapperScriptPath env) =
      some 0o755 ∧
    composeWrapperScriptPath env = pathResolve env.storagePath ["bin", "compose"] := by
  have hse' : env.connections.filter (fun c => c.status == "started") = c0 :: rest := hse
  constructor
  · rcases h4 : env.detect.checkStoragePath with e4 | b4
    · simp [runChecks, h1, h2, hse', addComposeWrapper_ok _ _ _ hg hc, h4,
        RunResult.state, wrapperRegenFs_modeAt _ _ _ hos]
    · cases b4 <;>
        simp [runChecks, h1, h2, hse', addComposeWrapper_ok _ _ _ hg hc, h4,
          finishChecks, RunResult.state, wrapperRegenFs_modeAt _ _ _ hos]
  · simp [composeWrapperScriptPath, pathResolve, not_windows_of_linux_or_mac env.os hos]

theorem addComposeWrapper_preserves_other (env : ChecksEnv) (fs : FileSystem)
    (connection : ProviderContainerConnection) (p : String)
    (hp : p ≠ composeWrapperScriptPath env) :
    (addComposeWrapper env fs connection).2.fileAt p = fs.fileAt p ∧
    (addComposeWrapper env fs connection).2.modeAt p = fs.modeAt p := by
  unfold addComposeWrapper makeExecutable
  rcases hg : env.generateResult with e | u
  · cases hex : fs.existsDir (pathResolve env.storagePath ["bin"]) <;> simp [hex]
  · cases hex : fs.existsDir (pathResolve env.storagePath ["bin"]) <;>
      rcases hc : env.chmodResult with e | u <;>
        cases hos : env.os.isLinux || env.os.isMac <;>
          simp [hex, hc, hos, fileAt_writeFile_ne _ _ _ _ hp, modeAt_chmod_ne _ _ _ _ hp]

theorem addComposeWrapper_windows_modes (env : ChecksEnv) (fs : FileSystem)
    (connection : ProviderContainerConnection)
    (hw : env.os.isWindows = true) :
    (addComposeWrapper env fs connection).2.modes = fs.modes := by
  have hlm : (env.os.isLinux || env.os.isMac) = false := by
    cases hos : env.os <;> simp_all [OSKind.isWindows, OSKind.isLinux, OSKind.isMac]
  unfold addComposeWrapper makeExecutable
  rcases hg : env.generateResult with e | u <;>
    cases hex : fs.existsDir (pathResolve env.storagePath ["bin"]) <;>
      simp [hex, hlm]

theorem runChecks_preserves_other (env : ChecksEnv) (firstCheck : Bool)
    (st : ExtensionState) (p : String)
    (hp : p ≠ composeWrapperScriptPath env) :
    (runChecks env firstCheck st).state.fs.fileAt p = st.fs.fileAt p ∧
    (runChecks env firstCheck st).state.fs.modeAt p = st.fs.modeAt p := by
  rcases h1 : env.detect.checkForDockerCompose with e1 | b1
  · simp [runChecks, h1, RunResult.state]
  cases b1
  · simp [runChecks, h1, finishChecks, RunResult.state]
  rcases h2 : env.detect.checkDefaultSocketIsAlive with e2 | b2
  · simp [runChecks, h1, h2, RunResult.state]
  cases b2
  case false =>
    rcases hse : env.connections.filter (fun c => c.status == "started") with _ | ⟨c0, rest⟩
    · simp [runChecks, h1, h2, hse, finishChecks, RunResult.state]
    · have hpres := addComposeWrapper_preserves_other env st.fs c0 p hp
      rcases hw : addComposeWrapper env st.fs c0 with ⟨r, fs1⟩
      rw [hw] at hpres
      rcases r with e | u
      · simp [runChecks, h1, h2, hse, hw, RunResult.state]
        exact hpres
      · rcases h4 : env.detect.checkStoragePath with e4 | b4
        · simp [runChecks, h1, h2, hse, hw, h4, RunResult.state]
          exact hpres
        · cases b4 <;>
            simp [runChecks, h1, h2, hse, hw, h4, finishChecks, RunResult.state] <;>
              exact hpres
  case true =>
    simp [runChecks, h1, h2, finishChecks, RunResult.state]

theorem runChecks_windows_modes (env : ChecksEnv) (firstCheck : Bool)
    (st : ExtensionState) (hw : env.os.isWindows = true) :
    (runChecks env firstCheck st).state.fs.modes = st.fs.modes := by
  rcases h1 : env.detect.checkForDockerCompose with e1 | b1
  · simp [runChecks, h1, RunResult.state]
  cases b1
  · simp [runChecks, h1, finishChecks, RunResult.state]
  rcases h2 : env.detect.checkDefaultSocketIsAlive with e2 | b2
  · simp [runChecks, h1, h2, RunResult.state]
  cases b2
  case false =>
    rcases hse : env.connections.filter (fun c => c.status == "started") with _ | ⟨c0, rest⟩
    · simp [runChecks, h1, h2, hse, finishChecks, RunResult.state]
    · have hpres := addComposeWrapper_windows_modes env st.fs c0 hw
      rcases hww : addComposeWrapper env st.fs c0 with ⟨r, fs1⟩
      rw [hww] at hpres
      rcases r with e | u
      · simp [runChecks, h1, h2, hse, hww, RunResult.state]
        exact hpres
      · rcases h4 : env.detect.checkStoragePath with e4 | b4
        · simp [runChecks, h1, h2, hse, hww, h4, RunResult.state]
          exact hpres
        · cases b4 <;>
            simp [runChecks, h1, h2, hse, hww, h4, finishChecks, RunResult.state] <;>
              exact hpres
  case true =>
    simp [runChecks, h1, h2, finishChecks, RunResult.state]

theorem download_location_ne_wrapper_path (env : InstallEnv) :
    dockerComposeDownloadLocation env ≠ composeWrapperScriptPath env.checks := by
  intro h
  have hlen := congrArg String.length h
  cases hwin : env.checks.os.isWindows <;>
    simp [dockerComposeDownloadLocation, composeWrapperScriptPath, pathResolve, hwin,
      String.length_append] at hlen <;>
    exact absurd hlen (by decide)

theorem finishInstall_shape (installedMessage : String) (recheck : RunResult) :
    ∃ st2 msgs, finishInstall installedMessage recheck =
      .ok st2 (installedMessage :: msgs) := by
  rcases recheck with ⟨st2, m, c⟩ | ⟨e, st2⟩
  · exact ⟨st2, m, rfl⟩
  · exact ⟨st2, [], rfl⟩

theorem finishInstall_state (installedMessage : String) (recheck : RunResult) :
    (finishInstall installedMessage recheck).state = recheck.state := by
  rcases recheck with ⟨st2, m, c⟩ | ⟨e, st2⟩ <;> rfl

theorem finishInstall_isError (installedMessage : String) (recheck : RunResult) :
    (finishInstall installedMessage recheck).isError = false := by
  rcases recheck with ⟨st2, m, c⟩ | ⟨e, st2⟩ <;> rfl

/-- **C9** (implicit): when the release source returns an empty list and the
user picks nothing, `installDockerCompose` dereferences the `id` field of the
absent index-0 element, which is the `TypeError` of taking `[0]` of `[]`; the
faulty branch is unreachable exactly when the release list is non-empty (any
user pick also avoids it). -/
theorem install_faults_on_empty_release_list (env : InstallEnv) (st : ExtensionState) :
    (env.grabLatestsReleasesMetadata = .ok [] → env.showQuickPick = none →
      installDockerCompose env st = .error (.typeError undefinedSelectionMessage) st) ∧
    (∀ sel (r : ReleaseMetadata) (rest : List ReleaseMetadata),
      (selectRelease sel (r :: rest)).isSome = true) := by
  constructor
  · intro hl hq
    simp [installDockerCompose, hl, hq, selectRelease]
  · intro sel r rest
    cases sel <;> simp [selectRelease]

/-- **C7**: when the user makes no selection in the version picker, the flow
selects index `0` of the release list (the most recent release), resolves its
asset id for the ambient platform and architecture, and the success
notification is the first pushed message and contains that release's label. -/
theorem install_defaults_to_most_recent (env : InstallEnv) (st : ExtensionState)
    (r : ReleaseMetadata) (rest : List ReleaseMetadata) (aid : Nat) (bytes : String)
    (hq : env.showQuickPick = none)
    (hl : env.grabLatestsReleasesMetadata = .ok (r :: rest))
    (ha : env.getReleaseAssetId r.id env.platform env.arch = .ok aid)
    (hd : env.downloadResult = .ok bytes)
    (hc : env.checks.chmodResult = .ok ()) :
    (∃ st2 msgs, installDockerCompose env st =
      .ok st2 (("Docker Compose " ++ r.label ++ " installed") :: msgs)) ∧
    (∃ s t, "Docker Compose " ++ r.label ++ " installed" = s ++ (r.label ++ t)) := by
  have hsel : selectRelease env.showQuickPick (r :: rest) = some r := by
    simp [selectRelease, hq]
  constructor
  · simp only [installDockerCompose, hl, hsel, ha, hd, downloadReleaseAsset,
      makeExecutable_ok _ _ _ hc]
    exact finishInstall_shape _ _
  · exact ⟨"Docker Compose ", " installed", by simp [String.append_assoc]⟩

/-- The filesystem right after a successful download and `makeExecutable`:
bin folder ensured, binary written at the download location, made executable
on Linux and Mac. -/
def installedFs (env : InstallEnv) (st : ExtensionState) (bytes : String) : FileSystem :=
  let storageBinFolder := pathResolve env.checks.storagePath ["bin"]
  let fsb := if st.fs.existsDir storageBinFolder then st.fs
    else st.fs.mkdirRecursive storageBinFolder
  let fsw := fsb.writeFile (dockerComposeDownloadLocation env) bytes
  if env.checks.os.isLinux || env.checks.os.isMac then
    fsw.chmod (dockerComposeDownloadLocation env) 0o755
  else fsw

theorem installDockerCompose_success_eq (env : InstallEnv) (st : ExtensionState)
    (l : List ReleaseMetadata) (r : ReleaseMetadata) (aid : Nat) (bytes : String)
    (hl : env.grabLatestsReleasesMetadata = .ok l)
    (hsel : selectRelease env.showQuickPick l = some r)
    (ha : env.getReleaseAssetId r.id env.platform env.arch = .ok aid)
    (hd : env.downloadResult = .ok bytes)
    (hc : env.checks.chmodResult = .ok ()) :
    installDockerCompose env st =
      finishInstall ("Docker Compose " ++ r.label ++ " installed")
        (runChecks env.checks false { st with fs := installedFs env st bytes }) := by
  simp only [installDockerCompose, hl, hsel, ha, hd, downloadReleaseAsset,
    makeExecutable_ok _ _ _ hc, installedFs]

theorem installedFs_fileAt_dest (env : InstallEnv) (st : ExtensionState) (bytes : String) :
    (installedFs env st bytes).fileAt (dockerComposeDownloadLocation env) = some bytes := by
  unfold installedFs
  cases hlm : env.checks.os.isLinux || env.checks.os.isMac <;> simp

theorem installedFs_modeAt_dest (env : InstallEnv) (st : ExtensionState) (bytes : String)
    (hlm : (env.checks.os.isLinux || env.checks.os.isMac) = true) :
    (installedFs env st bytes).modeAt (dockerComposeDownloadLocation env) = some 0o755 := by
  unfold installedFs
  simp [hlm]

theorem installedFs_modes_windows (env : InstallEnv) (st : ExtensionState) (bytes : String)
    (hwin : env.checks.os.isWindows = true) :
    (installedFs env st bytes).modes = st.fs.modes := by
  have hlm : (env.checks.os.isLinux || env.checks.os.isMac) = false := by
    cases h : env.checks.os <;>
      simp_all [OSKind.isWindows, OSKind.isLinux, OSKind.isMac]
  unfold installedFs
  cases hex : st.fs.existsDir (pathResolve env.checks.storagePath ["bin"]) <;>
    simp [hex, hlm]

/-- **C8**: after a successful install flow the binary is present at the
OS-correct destination (`docker-compose.exe` on Windows, `docker-compose`
otherwise); on Linux and Mac its permission mode is `0o755`; on Windows no
permission change is performed at all. -/
theorem install_success_binary_present_and_executable (env : InstallEnv)
    (st : ExtensionState) (l : List ReleaseMetadata) (r : ReleaseMetadata)
    (aid : Nat) (bytes : String)
    (hl : env.grabLatestsReleasesMetadata = .ok l)
    (hsel : selectRelease env.showQuickPick l = some r)
    (ha : env.getReleaseAssetId r.id env.platform env.arch = .ok aid)
    (hd : env.downloadResult = .ok bytes)
    (hc : env.checks.chmodResult = .ok ()) :
    (installDockerCompose env st).isError = false ∧
    (installDockerCompose env st).state.fs.fileAt (dockerComposeDownloadLocation env) =
      some bytes ∧
    ((env.checks.os.isLinux || env.checks.os.isMac) = true →
      (installDockerCompose env st).state.fs.modeAt (dockerComposeDownloadLocation env) =
        some 0o755) ∧
    (env.checks.os.isWindows = true →
      (installDockerCompose env st).state.fs.modes = st.fs.modes ∧
      dockerComposeDownloadLocation env =
        pathResolve (pathResolve env.checks.storagePath ["bin"]) ["docker-compose.exe"]) ∧
    (env.checks.os.isWindows = false →
      dockerComposeDownloadLocation env =
        pathResolve (pathResolve env.checks.storagePath ["bin"]) ["docker-compose"]) := by
  have heq := installDockerCompose_success_eq env st l r aid bytes hl hsel ha hd hc
  have hne : dockerComposeDownloadLocation env ≠ composeWrapperScriptPath env.checks :=
    download_location_ne_wrapper_path env
  have hpres := runChecks_preserves_other env.checks false
    { st with fs := installedFs env st bytes } (dockerComposeDownloadLocation env) hne
  refine ⟨?_, ?_, ?_, ?_, ?_⟩
  · rw [heq]
    exact finishInstall_isError _ _
  · rw [heq, finishInstall_state, hpres.1]
    exact installedFs_fileAt_dest env st bytes
  · intro hlm
    rw [heq, finishInstall_state, hpres.2]
    exact installedFs_modeAt_dest env st bytes hlm
  · intro hwin
    constructor
    · rw [heq, finishInstall_state,
        runChecks_windows_modes env.checks false _ hwin]
      exact installedFs_modes_windows env st bytes hwin
    · simp [dockerComposeDownloadLocation, hwin]
  · intro hwin
    simp [dockerComposeDownloadLocation, hwin]

/-- **C2** (amended): when `downloadAsset` fails partway (all earlier steps
having succeeded), the install flow aborts with that error and the content at
the final destination path is exactly what was there before the flow — a
preexisting binary survives untouched and, on a fresh install, no file exists
there afterward; the only filesystem change is the idempotent creation of the
bin folder. -/
theorem failed_download_preserves_destination (env : InstallEnv) (st : ExtensionState)
    (l : List ReleaseMetadata) (r : ReleaseMetadata) (aid : Nat) (e : Err)
    (hl : env.grabLatestsReleasesMetadata = .ok l)
    (hsel : selectRelease env.showQuickPick l = some r)
    (ha : env.getReleaseAssetId r.id env.platform env.arch = .ok aid)
    (hd : env.downloadResult = .error e) :
    installDockerCompose env st = .error e
      { st with fs :=
        if st.fs.existsDir (pathResolve env.checks.storagePath ["bin"]) then st.fs
        else st.fs.mkdirRecursive (pathResolve env.checks.storagePath ["bin"]) } ∧
    (installDockerCompose env st).state.fs.fileAt (dockerComposeDownloadLocation env) =
      st.fs.fileAt (dockerComposeDownloadLocation env) ∧
    (installDockerCompose env st).state.fs.files = st.fs.files ∧
    (installDockerCompose env st).state.fs.modes = st.fs.modes := by
  have heq : installDockerCompose env st = .error e
      { st with fs :=
        if st.fs.existsDir (pathResolve env.checks.storagePath ["bin"]) then st.fs
        else st.fs.mkdirRecursive (pathResolve env.checks.storagePath ["bin"]) } := by
    simp only [installDockerCompose, hl, hsel, ha, hd, downloadReleaseAsset]
  refine ⟨heq, ?_, ?_, ?_⟩ <;> rw [heq] <;>
    cases hex : st.fs.existsDir (pathResolve env.checks.storagePath ["bin"]) <;>
      simp [hex, InstallResult.state]

/-- **C3** (amended): failures raised by probes or collaborators are not
caught anywhere — a faulting compose probe makes the check cycle return that
error to the host, and a failed cycle pushes no presentation and no message
(warnings arise only from non-exceptional negative probe answers); install
flow failures equally propagate, and any failure up to and including the
download leaves every file content and permission mode unchanged. -/
theorem failures_propagate_uncaught (env : ChecksEnv) (ienv : InstallEnv)
    (firstCheck : Bool) (st sti : ExtensionState) :
    (∀ e, env.detect.checkForDockerCompose = .error e →
      runChecks env firstCheck st = .error e { st with currentInformation := none }) ∧
    ((runChecks env firstCheck st).isError = true →
      (runChecks env firstCheck st).state.statusBarItem = st.statusBarItem ∧
      (runChecks env firstCheck st).messages = [] ∧
      (runChecks env firstCheck st).changes = none) ∧
    (∀ e, ienv.grabLatestsReleasesMetadata = .error e →
      installDockerCompose ienv sti = .error e sti) ∧
    (∀ e l r aid, ienv.grabLatestsReleasesMetadata = .ok l →
      selectRelease ienv.showQuickPick l = some r →
      ienv.getReleaseAssetId r.id ienv.platform ienv.arch = .ok aid →
      ienv.downloadResult = .error e →
      (installDockerCompose ienv sti).isError = true ∧
      (installDockerCompose ienv sti).state.fs.files = sti.fs.files ∧
      (installDockerCompose ienv sti).state.fs.modes = sti.fs.modes) := by
  refine ⟨?_, ?_, ?_, ?_⟩
  · intro e he
    simp [runChecks, he]
  · intro herr
    rcases h1 : env.detect.checkForDockerCompose with e1 | b1
    · simp [runChecks, h1, RunResult.state, RunResult.messages, RunResult.changes]
    cases b1
    · simp [runChecks, h1, finishChecks, RunResult.isError] at herr
    rcases h2 : env.detect.checkDefaultSocketIsAlive with e2 | b2
    · simp [runChecks, h1, h2, RunResult.state, RunResult.messages, RunResult.changes]
    cases b2
    case false =>
      rcases hse : env.connections.filter (fun c => c.status == "started") with _ | ⟨c0, rest⟩
      · simp [runChecks, h1, h2, hse, finishChecks, RunResult.isError] at herr
      · rcases hw : addComposeWrapper env st.fs c0 with ⟨rr, fs1⟩
        rcases rr with e | u
        · simp [runChecks, h1, h2, hse, hw, RunResult.state, RunResult.messages,
            RunResult.changes]
        · rcases h4 : env.detect.checkStoragePath with e4 | b4
          · simp [runChecks, h1, h2, hse, hw, h4, RunResult.state, RunResult.messages,
              RunResult.changes]
          · cases b4 <;>
              simp [runChecks, h1, h2, hse, hw, h4, finishChecks, RunResult.isError] at herr
    case true =>
      simp [runChecks, h1, h2, finishChecks, RunResult.isError] at herr
  · intro e he
    simp [installDockerCompose, he]
  · intro e l r aid hl hsel ha hd
    have heq : installDockerCompose ienv sti = .error e
        { sti with fs :=
          if sti.fs.existsDir (pathResolve ienv.checks.storagePath ["bin"]) then sti.fs
          else sti.fs.mkdirRecursive (pathResolve ienv.checks.storagePath ["bin"]) } := by
      simp only [installDockerCompose, hl, hsel, ha, hd, downloadReleaseAsset]
    rw [heq]
    cases hex : sti.fs.existsDir (pathResolve ienv.checks.storagePath ["bin"]) <;>
      simp [hex, InstallResult.state, InstallResult.isError]

/-! Concrete fixtures used by the counterexamples and witnesses. -/

def sampleDetect : Detect :=
  { checkForDockerCompose := .ok true
    checkDefaultSocketIsAlive := .ok false
    checkStoragePath := .ok false
    getSocketPath := "/var/run/docker.sock" }

def sampleConnection : ProviderContainerConnection :=
  { status := "started", endpoint := "unix:///run/podman/podman.sock" }

def sampleChecksEnv : ChecksEnv :=
  { detect := sampleDetect
    connections := [sampleConnection]
    os := .linux
    storagePath := "/storage"
    generateResult := .ok ()
    chmodResult := .ok () }

def reachableChecksEnv : ChecksEnv :=
  { sampleChecksEnv with
    detect := { sampleDetect with checkDefaultSocketIsAlive := .ok true } }

def emptyFs : FileSystem := { files := [], modes := [], dirs := [] }

def sampleStatusBarItem : StatusBarChanges :=
  { iconClass := "", tooltip := "Compose", command := COMPOSE_CHECKS_COMMAND }

def sampleState : ExtensionState :=
  { currentInformation := none
    statusBarItem := some sampleStatusBarItem
    fs := emptyFs }

def c2Releases : List ReleaseMetadata :=
  [{ id := "v2", label := "2.0" }, { id := "v1", label := "1.0" }]

def sampleAssetResolver : String → String → String → Except Err Nat :=
  fun releaseId p a =>
    if releaseId == "v2" && p == "linux" && a == "x64" then .ok 42
    else .error (.unsupportedPlatform "no matching asset")

def successInstallEnv : InstallEnv :=
  { checks := sampleChecksEnv
    grabLatestsReleasesMetadata := .ok c2Releases
    showQuickPick := none
    getReleaseAssetId := sampleAssetResolver
    platform := "linux"
    arch := "x64"
    downloadResult := .ok "downloaded compose bytes" }

def failingDownloadEnv : InstallEnv :=
  { successInstallEnv with
    downloadResult := .error (.network "connection reset during download") }

def failingListEnv : InstallEnv :=
  { successInstallEnv with
    grabLatestsReleasesMetadata := .error (.network "release listing failed") }

def emptyReleasesEnv : InstallEnv :=
  { successInstallEnv with grabLatestsReleasesMetadata := .ok [] }

def preinstalledState : ExtensionState :=
  { currentInformation := none
    statusBarItem := none
    fs := { files := [("/storage/bin/docker-compose", "previously installed binary")]
            modes := []
            dirs := ["/storage/bin"] } }

def faultyProbeErr : Err := .probe "EACCES: permission denied while scanning PATH"

def faultyChecksEnv : ChecksEnv :=
  { sampleChecksEnv with
    detect := { sampleDetect with checkForDockerCompose := .error faultyProbeErr } }

/-- **C2** counterexample: with a binary already installed at the destination,
a failed download still leaves a file at the final destination path (the
previous binary, exactly as the atomic temp-write-then-rename mechanism
keeps it), so "no file exists at the final destination path afterward" fails
as stated for executions over an existing installation. -/
theorem failed_download_file_still_exists :
    (installDockerCompose failingDownloadEnv preinstalledState).isError = true ∧
    (installDockerCompose failingDownloadEnv preinstalledState).state.fs.fileAt
        (dockerComposeDownloadLocation failingDownloadEnv) =
      some "previously installed binary" := by
  constructor <;> rfl

/-- **C3** counterexample: a faulting compose probe makes the check cycle
return the error — the exception propagates to the host — with no Warning
presentation pushed: the status-bar item keeps its prior value and no status
change is computed. -/
theorem check_cycle_fault_counterexample :
    runChecks faultyChecksEnv false sampleState =
      .error faultyProbeErr { sampleState with currentInformation := none } ∧
    (runChecks faultyChecksEnv false sampleState).changes = none ∧
    (runChecks faultyChecksEnv false sampleState).state.statusBarItem =
      some sampleStatusBarItem := by
  refine ⟨rfl, rfl, rfl⟩

/-! Witnesses: each theorem with hypotheses applied at a concrete input. -/

theorem runChecks_matches_presentation_table_witness :
    (runChecks sampleChecksEnv false sampleState).changes =
      some (specPresentation sampleChecksEnv true false
        (!(startedConnections sampleChecksEnv).isEmpty) false) ∧
    (runChecks sampleChecksEnv false sampleState).state.statusBarItem =
      sampleState.statusBarItem.map (fun _ => specPresentation sampleChecksEnv true false
        (!(startedConnections sampleChecksEnv).isEmpty) false) ∧
    (specPresentation sampleChecksEnv true false
        (!(startedConnections sampleChecksEnv).isEmpty) false).command =
      (if specTransition true false (!(startedConnections sampleChecksEnv).isEmpty) false =
          .NotInstalled
        then COMPOSE_INSTALL_COMMAND else COMPOSE_CHECKS_COMMAND) :=
  runChecks_matches_presentation_table sampleChecksEnv false sampleState true false false
    rfl rfl rfl rfl rfl

theorem advisory_suppressed_on_first_check_witness :
    (runChecks sampleChecksEnv true sampleState).messages = [] ∧
    (runChecks sampleChecksEnv false sampleState).messages =
      [advisoryInformation sampleChecksEnv.storagePath] := by
  have h := advisory_suppressed_on_first_check sampleChecksEnv sampleState true false false
    rfl rfl rfl rfl rfl
  exact ⟨h.1, h.2 rfl⟩

theorem advisory_set_iff_needs_path_setup_witness :
    (runChecks sampleChecksEnv false sampleState).state.currentInformation =
      (if specTransition true false (!(startedConnections sampleChecksEnv).isEmpty) false =
          .InstalledNeedsPathSetup
        then some (advisoryInformation sampleChecksEnv.storagePath) else none) :=
  advisory_set_iff_needs_path_setup sampleChecksEnv false sampleState true false false
    rfl rfl rfl rfl rfl

theorem wrapper_written_iff_regeneration_branch_witness :
    (runChecks reachableChecksEnv false sampleState).state.fs = sampleState.fs ∧
    (runChecks sampleChecksEnv false sampleState).state.fs.fileAt
        (composeWrapperScriptPath sampleChecksEnv) =
      some (wrapperScriptContent sampleConnection) := by
  have ha := wrapper_written_iff_regeneration_branch reachableChecksEnv false sampleState
  have hb := wrapper_written_iff_regeneration_branch sampleChecksEnv false sampleState
  exact ⟨ha.1 (Or.inr (Or.inl rfl)), hb.2 sampleConnection [] rfl rfl rfl rfl rfl⟩

theorem wrapper_executable_after_regeneration_witness :
    (runChecks sampleChecksEnv false sampleState).state.fs.modeAt
        (composeWrapperScriptPath sampleChecksEnv) = some 0o755 ∧
    composeWrapperScriptPath sampleChecksEnv =
      pathResolve sampleChecksEnv.storagePath ["bin", "compose"] :=
  wrapper_executable_after_regeneration sampleChecksEnv false sampleState
    sampleConnection [] rfl rfl rfl rfl rfl rfl

theorem install_defaults_to_most_recent_witness :
    (∃ st2 msgs, installDockerCompose successInstallEnv sampleState =
      .ok st2 (("Docker Compose " ++ "2.0" ++ " installed") :: msgs)) ∧
    (∃ s t, "Docker Compose " ++ "2.0" ++ " installed" = s ++ ("2.0" ++ t)) :=
  install_defaults_to_most_recent successInstallEnv sampleState
    { id := "v2", label := "2.0" } [{ id := "v1", label := "1.0" }] 42
    "downloaded compose bytes" rfl rfl rfl rfl rfl

theorem install_success_binary_present_and_executable_witness :
    (installDockerCompose successInstallEnv sampleState).isError = false ∧
    (installDockerCompose successInstallEnv sampleState).state.fs.fileAt
        (dockerComposeDownloadLocation successInstallEnv) =
      some "downloaded compose bytes" ∧
    (installDockerCompose successInstallEnv sampleState).state.fs.modeAt
        (dockerComposeDownloadLocation successInstallEnv) = some 0o755 ∧
    dockerComposeDownloadLocation successInstallEnv =
      pathResolve (pathResolve successInstallEnv.checks.storagePath ["bin"])
        ["docker-compose"] := by
  have h := install_success_binary_present_and_executable successInstallEnv sampleState
    c2Releases { id := "v2", label := "2.0" } 42 "downloaded compose bytes"
    rfl rfl rfl rfl rfl
  exact ⟨h.1, h.2.1, h.2.2.1 rfl, h.2.2.2.2 rfl⟩

theorem install_faults_on_empty_release_list_witness :
    installDockerCompose emptyReleasesEnv sampleState =
      .error (.typeError undefinedSelectionMessage) sampleState ∧
    (selectRelease none [ReleaseMetadata.mk "v2" "2.0"]).isSome = true := by
  have h := install_faults_on_empty_release_list emptyReleasesEnv sampleState
  exact ⟨h.1 rfl rfl, h.2 none ⟨"v2", "2.0"⟩ []⟩

theorem failed_download_preserves_destination_witness :
    installDockerCompose failingDownloadEnv preinstalledState =
      .error (.network "connection reset during download")
        { preinstalledState with fs :=
          if preinstalledState.fs.existsDir (pathResolve "/storage" ["bin"])
          then preinstalledState.fs
          else preinstalledState.fs.mkdirRecursive (pathResolve "/storage" ["bin"]) } ∧
    (installDockerCompose failingDownloadEnv preinstalledState).state.fs.fileAt
        (dockerComposeDownloadLocation failingDownloadEnv) =
      preinstalledState.fs.fileAt (dockerComposeDownloadLocation failingDownloadEnv) ∧
    (installDockerCompose failingDownloadEnv preinstalledState).state.fs.files =
      preinstalledState.fs.files ∧
    (installDockerCompose failingDownloadEnv preinstalledState).state.fs.modes =
      preinstalledState.fs.modes :=
  failed_download_preserves_destination failingDownloadEnv preinstalledState c2Releases
    { id := "v2", label := "2.0" } 42 (.network "connection reset during download")
    rfl rfl rfl rfl

theorem failures_propagate_uncaught_witness :
    runChecks faultyChecksEnv false sampleState =
      .error faultyProbeErr { sampleState with currentInformation := none } ∧
    ((runChecks faultyChecksEnv false sampleState).state.statusBarItem =
        sampleState.statusBarItem ∧
      (runChecks faultyChecksEnv false sampleState).messages = [] ∧
      (runChecks faultyChecksEnv false sampleState).changes = none) ∧
    installDockerCompose failingListEnv sampleState =
      .error (.network "release listing failed") sampleState ∧
    (installDockerCompose failingDownloadEnv preinstalledState).isError = true := by
  have h1 := failures_propagate_uncaught faultyChecksEnv failingListEnv false
    sampleState sampleState
  have h2 := failures_propagate_uncaught faultyChecksEnv failingDownloadEnv false
    sampleState preinstalledState
  exact ⟨h1.1 faultyProbeErr rfl, h1.2.1 rfl,
    h1.2.2.1 (.network "release listing failed") rfl,
    (h2.2.2.2 (.network "connection reset during download") c2Releases
      ⟨"v2", "2.0"⟩ 42 rfl rfl rfl rfl).1⟩

end Compose
